import Mathlib

/-!
Shallow embedding of the porcupine langserver session manager
(src/porcupine/plugins/lsp.py) and of the command-runner output pump
(src/porcupine/plugins/run/no_terminal.py), together with theorems checking
the natural-language specification of the repository against the code.

Modelling conventions:
* Python byte strings are lists of natural numbers (byte values).
* Python text strings are Lean strings; operations Python performs on code
  points are carried out on the underlying character list.
* Object identity of Python objects (LangServer instances) is modelled by a
  numeric identity: distinct objects carry distinct numbers, so the Python
  test with the keyword is equality of those numbers.
* Exceptions escaping a function are the error value of an Except result or
  an Option String component of the result.
-/

namespace Porcupine

/-- Truthiness of an optional Python string: None and the empty string are
falsy, every other string is truthy. -/
def pyTruthy : Option String → Bool
  | none => false
  | some s => !(s == "")

/-- Python `a or b` where a is an optional string and b is the fallback:
the result is a when a is truthy, and b otherwise. -/
def pyOrStr (a : Option String) (b : String) : String :=
  match a with
  | none => b
  | some s => if s == "" then b else s

/-- Byte values read from a child process or socket. -/
abbrev Byte := Nat

/-! ### Transport: SubprocessStdIO, queue-based branch (lsp.py lines 41-93)

The branch taken when fcntl is unavailable: a worker thread is meant to read
the child process standard output one byte at a time into a thread-safe
queue, and the foreground read drains the queue without blocking. -/

/-- The object denoted by the name resolved for the identifier appearing as
the receiver of read(1) inside the loop of
SubprocessStdIO._stdout_to_read_queue (lsp.py line 65).  The module lsp.py
binds no global of that name, the method binds no local of that name, and
Python 3 has no builtin of that name, so the name resolution finds nothing:
the value is none. -/
def fileNameBinding : Option (List Byte) := none

/-- Reader loop shape of _stdout_to_read_queue: call read(1) on the resolved
object, push each byte obtained, and exit the loop when a read yields no
byte.  Consuming a byte list one element at a time in this way yields the
list itself. -/
def oneByteReaderLoop : List Byte → List Byte
  | [] => []
  | b :: rest => b :: oneByteReaderLoop rest

/-- Embedding of SubprocessStdIO._stdout_to_read_queue (lsp.py lines 61-68).
The first expression of the loop body resolves the name of the read target
via fileNameBinding; since that is none, the very first iteration raises
NameError before any byte is read or queued and the worker thread dies.
The child process standard output (the parameter) is never consulted.
Result: (bytes pushed onto the read queue, exception escaping the loop). -/
def stdout_to_read_queue (processStdout : List Byte) : List Byte × Option String :=
  match fileNameBinding with
  | none => ([], some "NameError: name file is not defined")
  | some fileContents => (oneByteReaderLoop fileContents, none)

/-- Modelled from the spec: the background reader blocks on one-byte reads
of the wrapped child process standard output and pushes each byte read onto
the thread-safe read queue, exiting the loop when a read yields no byte. -/
def stdout_to_read_queue_spec (processStdout : List Byte) : List Byte × Option String :=
  (oneByteReaderLoop processStdout, none)

/-- State of the read side of the queue-based subprocess transport: the
chunks currently sitting in the read queue and whether the worker thread is
alive. -/
structure SubprocessReadState where
  read_queue : List (List Byte)
  worker_alive : Bool
deriving DecidableEq

/-- Embedding of SubprocessStdIO.read (lsp.py lines 74-89), queue branch:
drain the whole queue into buf; if the worker thread is alive and buf is
empty return none (no data to read); otherwise return the drained bytes,
the empty result meaning the process exited. -/
def subprocessRead (s : SubprocessReadState) : Option (List Byte) × SubprocessReadState :=
  let buf := s.read_queue.flatten
  let s2 : SubprocessReadState := { read_queue := [], worker_alive := s.worker_alive }
  if s.worker_alive && buf.isEmpty then (none, s2) else (some buf, s2)

/-! ### Transport: LocalhostSocketIO (lsp.py lines 104-165) -/

/-- State of the receive side of the socket transport: the chunks the kernel
will still deliver (each nonempty), whether the peer has closed, and whether
the sender worker thread is alive. -/
structure SocketReadState where
  pending : List (List Byte)
  peer_closed : Bool
  worker_alive : Bool
deriving DecidableEq

/-- Embedding of LocalhostSocketIO.read (lsp.py lines 143-165).  The select
call reports the socket readable when data is pending or the peer has
closed; recv then yields the next pending chunk, or the empty byte string
once pending data is exhausted after peer close, in which case a stop
sentinel is sent to the worker thread (modelled by clearing worker_alive).
A socket that is neither readable nor closed yields none, as does the
not-yet-connected error path of recv. -/
def socketRead (s : SocketReadState) : Option (List Byte) × SocketReadState :=
  match s.pending with
  | c :: rest => (some c, { s with pending := rest })
  | [] =>
    if s.peer_closed then (some [], { s with worker_alive := false })
    else (none, s)

/-! ### Position translation (lsp.py lines 235-247) -/

/-- Protocol text position: zero-based line and character offset. -/
structure Position where
  line : Int
  character : Int
deriving DecidableEq

/-- Embedding of _position_tk2lsp (lsp.py lines 235-247), applied to an
internal position already split at the dot into its 1-based line and 0-based
column.  When the next_column flag is set, the source statement on line 242
adds one to the flag itself (Python True + 1 = 2) and rebinds the local name
next_column, which is never used again; the returned character offset is the
unmodified column in both modes. -/
def position_tk2lsp (line column : Int) (next_column : Bool) : Position :=
  let _next_column : Int := if next_column then 1 + 1 else 0
  { line := line - 1, character := column }

/-- Modelled from the spec: mapping 1-based-line/0-based-character internal
coordinates to zero-based protocol coordinates, where the end-of-line
insertion case (next_column true) requires the synthetic one-past-last
character offset, that is character column + 1. -/
def position_tk2lsp_intended (line column : Int) (next_column : Bool) : Position :=
  { line := line - 1, character := if next_column then column + 1 else column }

/-! ### Session registry (lsp.py lines 252-284, 515) -/

/-- Identity key of a langserver session (lsp.py lines 252-253). -/
structure LangServerId where
  command : String
  port : Option Nat
  project_root : String
deriving DecidableEq

/-- The process-wide langservers registry: a map from a LangServerId to the
identity of the LangServer object registered under it (none = no entry). -/
abbrev Registry := LangServerId → Option Nat

/-- Embedding of LangServer._is_in_langservers (lsp.py lines 274-277): the
current registry entry for the session key, compared by object identity
against this session. -/
def is_in_langservers (langservers : Registry) (key : LangServerId) (sid : Nat) : Bool :=
  langservers key == some sid

/-- Embedding of LangServer._get_removed_from_langservers (lsp.py lines
279-284): delete the registry entry for the session key only when the
current entry is this very session object. -/
def get_removed_from_langservers (langservers : Registry) (key : LangServerId) (sid : Nat) :
    Registry :=
  if is_in_langservers langservers key sid then
    fun k => if k = key then none else langservers k
  else langservers

/-! ### Completion items (lsp.py lines 198-216, 380-410) -/

/-- Fields of a protocol completion item used by the plugin; the optional
fields are either absent (None) or a string. -/
structure CompletionItem where
  label : String
  insertText : Option String
  filterText : Option String
  sortText : Option String
  documentation : Option String
deriving DecidableEq

/-- Python str.strip with no arguments: remove leading and trailing
whitespace characters (the labels in question use only ASCII whitespace). -/
def pyStrip (s : String) : String :=
  String.mk (((s.data.dropWhile Char.isWhitespace).reverse.dropWhile Char.isWhitespace).reverse)

/-- Python str.startswith: the argument is a character-wise prefix of the
receiver. -/
def pyStartsWith (s pre : String) : Bool :=
  pre.data.isPrefixOf s.data

/-- Embedding of get_completion_item_doc (lsp.py lines 198-216): a truthy
documentation is returned unchanged when it starts with the stripped label,
otherwise the stripped label, a blank line, and the documentation are glued
together; a falsy documentation falls through to the label. -/
def get_completion_item_doc (item : CompletionItem) : String :=
  if pyTruthy item.documentation then
    let doc := item.documentation.getD ""
    if pyStartsWith doc (pyStrip item.label) then doc
    else pyStrip item.label ++ "\n\n" ++ doc
  else item.label

/-- A word character in the sense of the regex class used on lsp.py line
390 (letters, digits, underscore; the inputs in question are ASCII). -/
def isWordChar (c : Char) : Bool :=
  c.isAlpha || c.isDigit || c == '_'

/-- Semantics of matching the whole text before the cursor against the
pattern of lsp.py line 390, a lazy dot-star followed by a captured greedy
word-character-star: with fullmatch, the lazy part takes the shortest prefix
whose remainder consists entirely of word characters, so the captured group
is the longest all-word-character suffix of the string.  This function is
the length of that group, computed from the reversed character list. -/
def trailingWordRunLen (s : String) : Nat :=
  (s.data.reverse.takeWhile isWordChar).length

/-- Python string slice s[n:], by code points. -/
def pyDropChars (n : Nat) (s : String) : String := String.mk (s.data.drop n)

/-- Python comparison of strings (strict less-than, lexicographic on code
points). -/
def pyStrLt : List Char → List Char → Bool
  | [], [] => false
  | [], _ :: _ => true
  | _ :: _, [] => false
  | a :: as, b :: bs =>
    if a.toNat < b.toNat then true
    else if b.toNat < a.toNat then false
    else pyStrLt as bs

/-- The sort key used on lsp.py line 406: sortText when truthy, else the
label. -/
def completionSortKey (item : CompletionItem) : String :=
  pyOrStr item.sortText item.label

/-- Comparator embedding the Python sorted call of lsp.py lines 404-407;
Python sorted is a stable sort by the key, embedded as a stable merge sort
with this total comparator. -/
def completionLe (a b : CompletionItem) : Bool :=
  !(pyStrLt (completionSortKey b).data (completionSortKey a).data)

/-- One entry of the completions list the plugin hands back to the editor
(lsp.py lines 392-403).  The replace_start and replace_end fields of the
source dict are produced by the external tkinter index arithmetic and carry
no information beyond the prefix length, which is recorded instead. -/
structure CompletionCandidate where
  display_text : String
  replace_prefix_len : Nat
  replace_text : String
  filter_text : String
  documentation : String
deriving DecidableEq

/-- Embedding of the completion-list construction of _handle_lsp_event
(lsp.py lines 386-408): prefix_len is the trailing word run of the text
before the cursor, and one candidate is produced per server item, the items
sorted stably by sortText-or-label. -/
def makeCompletions (before_cursor : String) (items : List CompletionItem) :
    List CompletionCandidate :=
  let plen := trailingWordRunLen before_cursor
  (items.mergeSort completionLe).map fun item =>
    { display_text := item.label
      replace_prefix_len := plen
      replace_text := pyOrStr item.insertText item.label
      filter_text := pyDropChars plen (pyOrStr item.filterText (pyOrStr item.insertText item.label))
      documentation := get_completion_item_doc item }

/-! ### Session, events and dispatch (lsp.py lines 256-512) -/

/-- States of the external protocol codec client referenced by the plugin
(spec names: Starting, Normal, ShuttingDown, Exited). -/
inductive ClientState where
  | STARTING
  | NORMAL
  | SHUTTING_DOWN
  | EXITED
deriving DecidableEq

/-- The per-document data the plugin reads from a file tab: its path, the
configured language id, the full buffer text, and before_cursor, the text
the widget reports between the line start of the stored cursor position and
the cursor itself at completion-response time (lsp.py lines 387-389). -/
structure Tab where
  path : String
  langserver_language_id : String
  text : String
  before_cursor : String
deriving DecidableEq

/-- A pending completion context: the info dict stored by
request_completions (lsp.py lines 482-484), holding the requesting tab and
the cursor position string from the request event. -/
structure PendingInfo where
  tab : Tab
  cursor_pos : String
deriving DecidableEq

/-- Modelled from the spec: pathname2url composed with abspath is an
external library call; on the absolute plain POSIX paths considered here it
is the identity. -/
def pathname2url (path : String) : String := path

/-- Embedding of get_uri (lsp.py lines 168-170). -/
def get_uri (path : String) : String := "file://" ++ pathname2url path

/-- Fields of a textDocument/didOpen notification (lsp.py lines 358-364). -/
structure DidOpenMsg where
  uri : String
  languageId : String
  text : String
  version : Nat
deriving DecidableEq

/-- Embedding of LangServer._send_tab_opened_message (lsp.py lines 357-365):
uri, configured language id, full current text, and the constant version
zero. -/
def send_tab_opened_message (tab : Tab) : DidOpenMsg :=
  { uri := get_uri tab.path
    languageId := tab.langserver_language_id
    text := tab.text
    version := 0 }

/-- Severity of a protocol log message (lsp.py lines 415-423). -/
inductive MessageType where
  | LOG
  | INFO
  | WARNING
  | ERROR
deriving DecidableEq

/-- The structured protocol events the codec can hand to the session
handler.  The Other constructor stands for every event class that the
isinstance chain of _handle_lsp_event (lsp.py lines 367-426) does not
recognize. -/
inductive LspEvent where
  | Initialized (capabilities : String)
  | Shutdown
  | Completion (message_id : Nat) (items : List CompletionItem)
  | PublishDiagnostics
  | LogMessage (type : MessageType) (message : String)
  | Other (kind : String)
deriving DecidableEq

/-- The mutable state of a LangServer object touched by event dispatch:
the codec client state, the attachment-ordered open tabs, the pending
completion table, and whether this object is still the current registry
entry for its key. -/
structure Session where
  state : ClientState
  tabs_opened : List Tab
  completion_infos : List (Nat × PendingInfo)
  in_registry : Bool
deriving DecidableEq

/-- Observable effects of handling one protocol event. -/
inductive Output where
  | didOpen (msg : DidOpenMsg)
  | exitNotification
  | completionResponse (tab : Tab) (completions : List CompletionCandidate)
  | logged (level : MessageType) (message : String)
deriving DecidableEq

/-- Embedding of LangServer._handle_lsp_event (lsp.py lines 367-426).  An
exception escaping the handler is the error value: NotImplementedError for
an event kind with no isinstance branch (line 426), KeyError when a
completion response id is not a key of the pending table (the pop on line
381).  The Shutdown branch sends the exit notification and removes the
session from the registry when it is still the current entry. -/
def handle_lsp_event (s : Session) (e : LspEvent) : Except String (Session × List Output) :=
  match e with
  | .Initialized _caps =>
    .ok (s, s.tabs_opened.map (fun tab => .didOpen (send_tab_opened_message tab)))
  | .Shutdown => .ok ({ s with in_registry := false }, [.exitNotification])
  | .Completion mid items =>
    match s.completion_infos.lookup mid with
    | none => .error "KeyError"
    | some info =>
      .ok ({ s with completion_infos := s.completion_infos.eraseP (fun p => p.1 == mid) },
        [.completionResponse info.tab (makeCompletions info.tab.before_cursor items)])
  | .PublishDiagnostics => .ok (s, [])
  | .LogMessage lvl msg => .ok (s, [.logged lvl msg])
  | .Other _kind => .error "NotImplementedError"

/-- Result of one pass over the decoded events inside _run_stuff_once
(lsp.py lines 349-355): the session afterwards, the outputs produced, the
messages logged at error severity via log.exception, and whether run_stuff
goes on rescheduling (the True returned on line 355). -/
structure DispatchResult where
  session : Session
  outputs : List Output
  error_logs : List String
  rerun : Bool
deriving DecidableEq

/-- Embedding of the event loop of _run_stuff_once (lsp.py lines 349-355):
every event is handled in order; an exception escaping the handler is
caught, logged with log.exception at error severity, and the loop continues
with the next event; afterwards True is returned so run_stuff reschedules
this session. -/
def dispatch_events (s : Session) (events : List LspEvent) : DispatchResult :=
  match events with
  | [] => { session := s, outputs := [], error_logs := [], rerun := true }
  | e :: rest =>
    match handle_lsp_event s e with
    | .ok (s2, outs) =>
      let r := dispatch_events s2 rest
      { session := r.session, outputs := outs ++ r.outputs, error_logs := r.error_logs,
        rerun := r.rerun }
    | .error msg =>
      let r := dispatch_events s rest
      { session := r.session, outputs := r.outputs,
        error_logs := ("error while handling langserver event: " ++ msg) :: r.error_logs,
        rerun := r.rerun }

/-! ### Change notifications and the version counter (lsp.py lines 264, 486-512) -/

/-- One content change of a change event, with its tkinter positions already
split into 1-based line and 0-based column and its replacement text. -/
structure ChangeInfo where
  start_line : Int
  start_col : Int
  end_line : Int
  end_col : Int
  new_text : String
deriving DecidableEq

/-- One range-and-text entry of a didChange notification. -/
structure ContentChange where
  range_start : Position
  range_end : Position
  text : String
deriving DecidableEq

/-- Fields of a textDocument/didChange notification (lsp.py lines 497-512). -/
structure DidChangeMsg where
  uri : String
  version : Nat
  content_changes : List ContentChange
deriving DecidableEq

/-- Embedding of LangServer.send_change_events (lsp.py lines 486-512) acting
on the session version counter, an itertools count starting at zero (lsp.py
line 264).  While the client state is not NORMAL nothing is sent and the
counter is not advanced; otherwise one notification is sent carrying the
next counter value, whatever document the call is for. -/
def send_change_events (state : ClientState) (counter : Nat) (path : String)
    (infos : List ChangeInfo) : Option DidChangeMsg × Nat :=
  if state = .NORMAL then
    (some
      { uri := get_uri path
        version := counter
        content_changes := infos.map (fun i =>
          { range_start := position_tk2lsp i.start_line i.start_col false
            range_end := position_tk2lsp i.end_line i.end_col false
            text := i.new_text }) },
      counter + 1)
  else (none, counter)

/-- One call to send_change_events: the client state at call time, the
document path, and the submitted change list. -/
structure ChangeCall where
  state : ClientState
  path : String
  infos : List ChangeInfo

/-- The notifications produced by a run of send_change_events calls,
threading the session version counter through the calls. -/
def run_send_changes (calls : List ChangeCall) (counter : Nat) : List DidChangeMsg :=
  match calls with
  | [] => []
  | c :: rest =>
    match send_change_events c.state counter c.path c.infos with
    | (none, c2) => run_send_changes rest c2
    | (some msg, c2) => msg :: run_send_changes rest c2

/-! ### Command runner output pump (no_terminal.py lines 102-134, 182-240) -/

/-- One item of the output queue of the Executor: message type and text. -/
abbrev QueueItem := String × String

/-- Text of the failure message the pump thread queues for a nonzero exit
status (no_terminal.py line 133). -/
def failMsg (status : Int) : String :=
  "The process failed with status " ++ toString status ++ "."

/-- Embedding of the queue contents produced by Executor._thread_target
(no_terminal.py lines 102-134) for a successfully spawned process: the
command echo line, one output item per chunk read from the pipe (chunks
stand for the already decoded and sanitized texts), the status line, and the
end marker, in this order. -/
def thread_target_queue (command : String) (chunks : List String) (status : Int) :
    List QueueItem :=
  ("info", command ++ "\n") ::
    (chunks.map (fun c => ("output", c)) ++
      [(if status = 0 then ("info", "The process completed successfully.")
        else ("error", failMsg status)),
       ("end", "")])

/-- The exit status wait reports for the shell after the kill on a posix
platform (no_terminal.py lines 219-222): minus SIGKILL. -/
def kill_status : Int := -9

/-- Items appended to the text widget by the drain loop of Executor.stop
(no_terminal.py lines 224-234): queued items are consumed in order until the
end marker; the item equal to the synthesized kill-status failure message is
consumed without being handled, handling the end marker generates the
file-system-changed event instead of appending text, and every other item is
appended.  The two guards commute because handling the end item appends
nothing. -/
def stop_drain (ks : Int) : List QueueItem → List QueueItem
  | [] => []
  | item :: rest =>
    if item.1 = "end" then []
    else if item = ("error", failMsg ks) then stop_drain ks rest
    else item :: stop_drain ks rest

/-- Everything Executor.stop appends during a non-clean stop (quitting
false) of a process it killed: the drained queue items followed by the
synthesized Killed message (no_terminal.py line 237). -/
def stop_appends (ks : Int) (q : List QueueItem) : List QueueItem :=
  stop_drain ks q ++ [("error", "Killed.")]

/-! ### Concrete objects used by witnesses and counterexamples -/

/-- A concrete tab used by the dispatch theorems of claim C1. -/
def c1Tab : Tab :=
  { path := "/tmp/proj/a.py"
    langserver_language_id := "python"
    text := "x = 1\n"
    before_cursor := "x = pri" }

/-- A concrete normal-state session that is the current registry entry and
has an empty pending-completions table. -/
def c1Session : Session :=
  { state := .NORMAL, tabs_opened := [c1Tab], completion_infos := [], in_registry := true }

/-- A concrete registry key for the witness of claim C5. -/
def wKey : LangServerId :=
  { command := "pyls", port := none, project_root := "/tmp/proj" }

/-- A concrete registry holding session 7 under wKey. -/
def witnessRegistry : Registry :=
  fun k => if k = wKey then some 7 else none

/-- A concrete completion item with insert text print, as in the spec
example of claim C8. -/
def printItem : CompletionItem :=
  { label := "print", insertText := some "print", filterText := none, sortText := none,
    documentation := none }

/-- The candidate makeCompletions produces from printItem after the typed
prefix pri. -/
def printCand : CompletionCandidate :=
  { display_text := "print", replace_prefix_len := 3, replace_text := "print",
    filter_text := "nt", documentation := "print" }

/-- A concrete completion item for the witness of claim C9: label foo(x)
with a documentation that does not restate the label. -/
def fooItem : CompletionItem :=
  { label := "foo(x)", insertText := none, filterText := none, sortText := none,
    documentation := some "does a thing" }

/-! ### Theorems -/

/-- C2 (code_bug): the translation of an internal position with 1-based
line L and 0-based column C yields protocol line L-1 and character C in the
default mode, but in the next_column mode the code still yields character C,
not C+1 as the claim states, because the increment on lsp.py line 242 is
applied to the flag instead of the column: at line 1, column 5 the code
produces character 5 while the intended synthetic one-past-last offset is
character 6. -/
theorem C2_next_column_has_no_effect :
    position_tk2lsp 1 5 false = { line := 0, character := 5 } ∧
    position_tk2lsp 1 5 true = { line := 0, character := 5 } ∧
    position_tk2lsp_intended 1 5 true = { line := 0, character := 6 } ∧
    position_tk2lsp 1 5 true ≠ position_tk2lsp_intended 1 5 true := by
  refine ⟨rfl, rfl, rfl, ?_⟩
  decide

/-- C3 (code_bug): on the platform branch without fcntl, the background
reader loop is supposed to read one byte per iteration from the child
process standard output and push each byte onto the read queue, but its read
target is an unbound name, so the first iteration raises NameError and the
thread dies with nothing queued: on a stdout delivering bytes 104 and 105
the code queues nothing and raises, while the loop the spec describes queues
exactly those bytes. -/
theorem C3_reader_thread_dies_of_name_error :
    stdout_to_read_queue [104, 105] = ([], some "NameError: name file is not defined") ∧
    stdout_to_read_queue_spec [104, 105] = ([104, 105], none) ∧
    stdout_to_read_queue [104, 105] ≠ stdout_to_read_queue_spec [104, 105] := by
  refine ⟨rfl, rfl, ?_⟩
  decide

/-- C5 (confirmed): removing a session from the registry deletes the entry
for its key only when the current entry is that very session object, and
leaves every other key untouched; when a different session object has been
registered under the same key, the removal leaves the registry unchanged. -/
theorem C5_remove_only_when_current (langservers : Registry) (key : LangServerId) (sid : Nat) :
    (langservers key = some sid →
      get_removed_from_langservers langservers key sid key = none ∧
      ∀ k, k ≠ key → get_removed_from_langservers langservers key sid k = langservers k) ∧
    (langservers key ≠ some sid →
      get_removed_from_langservers langservers key sid = langservers) := by
  constructor
  · intro h
    have hb : is_in_langservers langservers key sid = true := by
      simp [is_in_langservers, h]
    refine ⟨?_, ?_⟩
    · simp [get_removed_from_langservers, hb]
    · intro k hk
      simp [get_removed_from_langservers, hb, hk]
  · intro h
    have hb : is_in_langservers langservers key sid = false := by
      simp [is_in_langservers]
      exact h
    simp [get_removed_from_langservers, hb]

/-- Witness for C5: in a registry holding session 7 under wKey, removal by
session 7 empties the entry for wKey and touches no other key. -/
theorem C5_witness :
    witnessRegistry wKey = some 7 ∧
    (get_removed_from_langservers witnessRegistry wKey 7 wKey = none ∧
      ∀ k, k ≠ wKey → get_removed_from_langservers witnessRegistry wKey 7 k = witnessRegistry k) :=
  ⟨by decide, (C5_remove_only_when_current witnessRegistry wKey 7).1 (by decide)⟩

/-- C4 (counterexample): the claim that closure is reported exactly once is
false on the code: for the subprocess transport with the worker thread dead
and the queue drained, read returns empty bytes, and the very next read on
the resulting state returns empty bytes again; the socket transport behaves
the same once the peer has closed and the pending data is exhausted. -/
theorem C4_closure_reported_again :
    (subprocessRead { read_queue := [], worker_alive := false }).1 = some [] ∧
    (subprocessRead (subprocessRead { read_queue := [], worker_alive := false }).2).1 =
      some [] ∧
    (socketRead { pending := [], peer_closed := true, worker_alive := true }).1 = some [] ∧
    (socketRead
      (socketRead { pending := [], peer_closed := true, worker_alive := true }).2).1 =
      some [] := by
  refine ⟨rfl, rfl, rfl, rfl⟩

/-- C4 (corrected): once the peer has closed (worker thread dead for the
subprocess transport, peer_closed with drained pending data for the socket
transport), read never returns the no-data signal; instead of reporting
closure exactly once, every subsequent read returns empty bytes again — the
exactly-once behavior comes from the caller, which stops polling after the
first closure report. -/
theorem C4_read_after_closure (s : SubprocessReadState) (t : SocketReadState)
    (hs : s.worker_alive = false) (hc : t.peer_closed = true) (hp : t.pending = []) :
    (subprocessRead s).1 = some s.read_queue.flatten ∧
    (subprocessRead (subprocessRead s).2).1 = some [] ∧
    (socketRead t).1 = some [] ∧
    (socketRead (socketRead t).2).1 = some [] := by
  refine ⟨?_, ?_, ?_, ?_⟩
  · simp [subprocessRead, hs]
  · simp [subprocessRead, hs]
  · simp [socketRead, hc, hp]
  · simp [socketRead, hc, hp]

/-- Witness for C4: the closed transport states with a leftover queued chunk
on the subprocess side. -/
theorem C4_witness :
    ({ read_queue := [[104]], worker_alive := false } : SubprocessReadState).worker_alive
      = false ∧
    ({ pending := [], peer_closed := true, worker_alive := true } : SocketReadState).peer_closed
      = true ∧
    ({ pending := [], peer_closed := true, worker_alive := true } : SocketReadState).pending
      = [] ∧
    ((subprocessRead { read_queue := [[104]], worker_alive := false }).1 =
        some ({ read_queue := [[104]], worker_alive := false } : SubprocessReadState).read_queue.flatten ∧
      (subprocessRead (subprocessRead { read_queue := [[104]], worker_alive := false }).2).1 =
        some [] ∧
      (socketRead { pending := [], peer_closed := true, worker_alive := true }).1 = some [] ∧
      (socketRead
        (socketRead { pending := [], peer_closed := true, worker_alive := true }).2).1 =
        some []) :=
  ⟨rfl, rfl, rfl,
    C4_read_after_closure { read_queue := [[104]], worker_alive := false }
      { pending := [], peer_closed := true, worker_alive := true } rfl rfl rfl⟩

/-- Helper: the drain loop of Executor.stop passes queued output lines
through untouched, because their message type is neither the end marker nor
the error type of the kill-status message. -/
theorem stop_drain_output_lines (ks : Int) (chunks : List String) (rest : List QueueItem) :
    stop_drain ks (chunks.map (fun c => ("output", c)) ++ rest) =
      chunks.map (fun c => ("output", c)) ++ stop_drain ks rest := by
  induction chunks with
  | nil => rfl
  | cons c cs ih => simp [stop_drain, ih]

/-- C7 (counterexample): the claim that the non-clean stop appends every
drained queue item is false on the code: for a killed command whose queue
holds the echo line, one output line, the synthesized kill-status failure
message, and the end marker, the kill-status failure message is drained but
never appended. -/
theorem C7_kill_status_item_not_appended :
    ("error", failMsg (-9)) ∈ thread_target_queue "python3 foo.py" ["hello\n"] (-9) ∧
    ("error", failMsg (-9)) ∉
      stop_appends kill_status (thread_target_queue "python3 foo.py" ["hello\n"] (-9)) := by
  refine ⟨?_, ?_⟩ <;> decide

/-- C7 (corrected): during a non-clean stop of a killed process the
foreground drains the whole queue in order; every queued line is appended in
queue order except the synthesized kill-status failure message, which is
suppressed in favour of the final Killed message, and the end marker, whose
handling emits the file-system-changed event instead of text; the Killed
message is always the last item appended, whatever the queue held. -/
theorem C7_drain_order_and_killed_last (command : String) (chunks : List String)
    (q : List QueueItem) :
    stop_appends kill_status (thread_target_queue command chunks kill_status) =
      ("info", command ++ "\n") :: (chunks.map (fun c => ("output", c))
        ++ [("error", "Killed.")]) ∧
    (stop_appends kill_status q).getLast? = some ("error", "Killed.") := by
  constructor
  · show stop_drain kill_status (thread_target_queue command chunks kill_status)
        ++ [("error", "Killed.")] = _
    rw [thread_target_queue]
    rw [show stop_drain kill_status (("info", command ++ "\n") ::
        (chunks.map (fun c => ("output", c)) ++
          [(if kill_status = 0 then ("info", "The process completed successfully.")
            else ("error", failMsg kill_status)), ("end", "")])) =
        ("info", command ++ "\n") :: stop_drain kill_status
          (chunks.map (fun c => ("output", c)) ++
            [(if kill_status = 0 then ("info", "The process completed successfully.")
              else ("error", failMsg kill_status)), ("end", "")]) from by
      simp [stop_drain, failMsg]]
    rw [stop_drain_output_lines]
    have hks : kill_status ≠ 0 := by decide
    simp [stop_drain, hks]
  · exact List.getLast?_concat _

/-- C1 (counterexample): the claim that a protocol invariant violation is
fatal to the session is false on the code: dispatching an event of an
unrecognized kind, or a completion response whose id has no pending entry,
to a concrete live session leaves the session unchanged and still in the
registry, logs one message, and returns True so the loop is rescheduled —
the violation is handled by merely logging and continuing. -/
theorem C1_violation_not_fatal :
    (dispatch_events c1Session [.Other "RegisterCapabilityRequest"]).session = c1Session ∧
    (dispatch_events c1Session [.Other "RegisterCapabilityRequest"]).session.in_registry
      = true ∧
    (dispatch_events c1Session [.Other "RegisterCapabilityRequest"]).rerun = true ∧
    (dispatch_events c1Session [.Other "RegisterCapabilityRequest"]).error_logs =
      ["error while handling langserver event: NotImplementedError"] ∧
    (dispatch_events c1Session [.Completion 5 []]).session = c1Session ∧
    (dispatch_events c1Session [.Completion 5 []]).rerun = true ∧
    (dispatch_events c1Session [.Completion 5 []]).error_logs =
      ["error while handling langserver event: KeyError"] := by
  refine ⟨rfl, rfl, rfl, rfl, rfl, rfl, rfl⟩

/-- C1 (corrected): for every dispatched protocol event of an unrecognized
kind, and for every completion response whose request id has no matching
pending entry, the handler raises (NotImplementedError, KeyError); the
dispatch loop catches the exception, logs it at error level, and continues:
the session state and registry membership are untouched and the loop keeps
being rescheduled — the session is not torn down. -/
theorem C1_violation_logged_and_loop_continues (s : Session) (kind : String) (mid : Nat)
    (items : List CompletionItem) (hmid : s.completion_infos.lookup mid = none) :
    handle_lsp_event s (.Other kind) = .error "NotImplementedError" ∧
    dispatch_events s [.Other kind] =
      { session := s, outputs := [],
        error_logs := ["error while handling langserver event: NotImplementedError"],
        rerun := true } ∧
    handle_lsp_event s (.Completion mid items) = .error "KeyError" ∧
    dispatch_events s [.Completion mid items] =
      { session := s, outputs := [],
        error_logs := ["error while handling langserver event: KeyError"],
        rerun := true } := by
  refine ⟨rfl, rfl, ?_, ?_⟩
  · simp [handle_lsp_event, hmid]
  · simp [dispatch_events, handle_lsp_event, hmid]

/-- Witness for C1: the concrete session c1Session has no pending entry for
id 5, and dispatching the two violating events logs and continues. -/
theorem C1_witness :
    c1Session.completion_infos.lookup 5 = none ∧
    (handle_lsp_event c1Session (.Other "WorkDoneProgress") = .error "NotImplementedError" ∧
      dispatch_events c1Session [.Other "WorkDoneProgress"] =
        { session := c1Session, outputs := [],
          error_logs := ["error while handling langserver event: NotImplementedError"],
          rerun := true } ∧
      handle_lsp_event c1Session (.Completion 5 []) = .error "KeyError" ∧
      dispatch_events c1Session [.Completion 5 []] =
        { session := c1Session, outputs := [],
          error_logs := ["error while handling langserver event: KeyError"],
          rerun := true }) :=
  ⟨rfl, C1_violation_logged_and_loop_continues c1Session "WorkDoneProgress" 5 [] rfl⟩

/-- C6 (confirmed): on the initialization-complete event the handler
succeeds without touching the session and emits exactly one open
notification per attached document, in attachment order, each carrying the
document uri, its configured language identifier, its full current text,
and version number 0. -/
theorem C6_replay_opens_in_order (s : Session) (caps : String) :
    ∃ outs, handle_lsp_event s (.Initialized caps) = .ok (s, outs) ∧
      outs.length = s.tabs_opened.length ∧
      ∀ i : Nat, outs[i]? = (s.tabs_opened[i]?).map (fun tab =>
        Output.didOpen
          { uri := get_uri tab.path
            languageId := tab.langserver_language_id
            text := tab.text
            version := 0 }) := by
  refine ⟨_, rfl, List.length_map _ _, fun i => ?_⟩
  rw [List.getElem?_map]
  rfl

/-- Helper: the versions of the notifications produced by a run of
send_change_events calls are the consecutive integers starting at the
initial counter value, one per call made in the NORMAL state, whatever
documents the calls are for. -/
theorem run_send_changes_versions (calls : List ChangeCall) (counter : Nat) :
    (run_send_changes calls counter).map (fun m => m.version) =
      List.range' counter (calls.countP (fun c => c.state == .NORMAL)) := by
  induction calls generalizing counter with
  | nil => rfl
  | cons c rest ih =>
    by_cases h : c.state = ClientState.NORMAL
    · have hcnt : (c :: rest).countP (fun c => c.state == ClientState.NORMAL) =
          rest.countP (fun c => c.state == ClientState.NORMAL) + 1 := by
        rw [List.countP_cons]
        simp [h]
      rw [hcnt, List.range'_succ, run_send_changes]
      simp only [send_change_events, if_pos h, List.map_cons, ih]
    · have hb : (c.state == ClientState.NORMAL) = false := by
        simp [h]
      have hcnt : (c :: rest).countP (fun c => c.state == ClientState.NORMAL) =
          rest.countP (fun c => c.state == ClientState.NORMAL) := by
        rw [List.countP_cons, hb]
        simp
      rw [hcnt, run_send_changes]
      simp only [send_change_events, if_neg h]
      exact ih counter

/-- C10 (confirmed): the per-session change version counter starts at zero
and is shared across the documents of the session: every open notification
carries version 0, and a session whose counter starts at zero sends change
notifications carrying the consecutive integers 0, 1, 2, ... in call order,
one per sendChange call made in the NORMAL state, regardless of which
document each call is for. -/
theorem C10_shared_version_counter (calls : List ChangeCall) (tab : Tab) :
    (send_tab_opened_message tab).version = 0 ∧
    (run_send_changes calls 0).map (fun m => m.version) =
      List.range' 0 (calls.countP (fun c => c.state == .NORMAL)) :=
  ⟨rfl, run_send_changes_versions calls 0⟩

/-- C8 (confirmed): every candidate produced from a completion response
comes from one of the server items, and its filter text is the item filter
text, else its insert text, else its label, with the first prefix_len
characters removed, where prefix_len is the length of the longest trailing
run of word characters in the text before the cursor — so the already-typed
prefix is stripped from the filter text. -/
theorem C8_filter_text_strips_typed_word (before_cursor : String)
    (items : List CompletionItem) (cand : CompletionCandidate)
    (hmem : cand ∈ makeCompletions before_cursor items) :
    ∃ item ∈ items,
      cand.filter_text =
        pyDropChars (trailingWordRunLen before_cursor)
          (pyOrStr item.filterText (pyOrStr item.insertText item.label)) := by
  simp only [makeCompletions, List.mem_map] at hmem
  obtain ⟨item, hitem, heq⟩ := hmem
  refine ⟨item, List.mem_mergeSort.mp hitem, ?_⟩
  rw [← heq]

/-- Witness for C8: for the typed prefix pri and a candidate with insert
text print, the produced candidate is a member of the result and its filter
text, nt, is the chosen string with the three typed word characters
removed. -/
theorem C8_witness :
    printCand ∈ makeCompletions "pri" [printItem] ∧
    ∃ item ∈ [printItem],
      printCand.filter_text =
        pyDropChars (trailingWordRunLen "pri")
          (pyOrStr item.filterText (pyOrStr item.insertText item.label)) := by
  have hmem : printCand ∈ makeCompletions "pri" [printItem] := by
    simp only [makeCompletions, List.mergeSort_singleton]
    decide
  exact ⟨hmem, C8_filter_text_strips_typed_word "pri" [printItem] printCand hmem⟩

/-- C9 (confirmed): for a completion item with a non-empty documentation,
the produced documentation string is the documentation unchanged exactly
when the documentation starts with the whitespace-stripped label, and
otherwise it is the stripped label, a blank line, and the documentation. -/
theorem C9_documentation_synthesis (item : CompletionItem) (d : String)
    (hdoc : item.documentation = some d) (hne : d ≠ "") :
    (get_completion_item_doc item = d ↔ pyStartsWith d (pyStrip item.label) = true) ∧
    (pyStartsWith d (pyStrip item.label) = false →
      get_completion_item_doc item = pyStrip item.label ++ "\n\n" ++ d) := by
  have htr : pyTruthy item.documentation = true := by
    rw [hdoc]
    simp [pyTruthy, hne]
  have hgetD : item.documentation.getD "" = d := by
    rw [hdoc]
    rfl
  by_cases hsw : pyStartsWith d (pyStrip item.label) = true
  · have hres : get_completion_item_doc item = d := by
      simp [get_completion_item_doc, htr, hgetD, hsw]
    exact ⟨⟨fun _ => hsw, fun _ => hres⟩,
      fun hfalse => absurd hsw (by rw [hfalse]; decide)⟩
  · have hsw2 : pyStartsWith d (pyStrip item.label) = false := by
      cases hval : pyStartsWith d (pyStrip item.label)
      · rfl
      · exact absurd hval hsw
    have hres : get_completion_item_doc item = pyStrip item.label ++ "\n\n" ++ d := by
      simp [get_completion_item_doc, htr, hgetD, hsw2]
    refine ⟨⟨fun heq => ?_, fun hcontra => absurd hcontra hsw⟩, fun _ => hres⟩
    exfalso
    rw [hres] at heq
    have hl := congrArg String.length heq
    rw [String.length_append, String.length_append] at hl
    have h2 : ("\n\n" : String).length = 2 := rfl
    omega

/-- Witness for C9: the item with label foo(x) and documentation that does
not restate the label gets the synthesized label, blank line, documentation
form. -/
theorem C9_witness :
    fooItem.documentation = some "does a thing" ∧
    "does a thing" ≠ "" ∧
    ((get_completion_item_doc fooItem = "does a thing" ↔
        pyStartsWith "does a thing" (pyStrip fooItem.label) = true) ∧
      (pyStartsWith "does a thing" (pyStrip fooItem.label) = false →
        get_completion_item_doc fooItem =
          pyStrip fooItem.label ++ "\n\n" ++ "does a thing")) :=
  ⟨rfl, by decide, C9_documentation_synthesis fooItem "does a thing" rfl (by decide)⟩

end Porcupine
